import Mathlib

/-!
Verification of the playlist API in `src/index.js`: a shallow embedding of
the token service (`toJWT`/`toData`), the credential store (bcrypt), the
`auth` middleware, and the route handlers, together with theorems settling
the specification claims.

Machine conventions:
* Time is a `Nat` of seconds since the epoch (`jsonwebtoken` uses seconds).
* A JWT is modelled as an inductive: either a parseable signed token
  carrying its payload, expiry, and the key its signature was computed
  with, or an unparseable string.  `jsonwebtoken.verify` checks the
  signature first, then the `exp` claim (expired when `now >= exp`).
* bcrypt is modelled as an idealized salted one-way function: the hash
  records the salt and the plaintext it was derived from; `compareSync`
  succeeds exactly when the plaintext matches.
* The Sequelize store is a record of lists with per-table auto-increment
  counters; `findByPk`/`findOne` are `List.find?`, `findAll` a filter,
  `destroy` a filter with a removed-row count, `create` an append.
-/

namespace Spotify

/-- The claims object passed to `toJWT` at login: `{ userId: user.id }`. -/
structure Claims where
  userId : Nat
deriving DecidableEq, Repr

/-- A JWT string as seen by `jsonwebtoken`: either it parses into a signed
payload with an `exp` claim (the `sig` field records the secret the
signature was computed with), or it is malformed. -/
inductive Jwt where
  | signed (payload : Claims) (exp : Nat) (sig : String)
  | malformed (raw : String)
deriving DecidableEq, Repr

/-- A `jsonwebtoken` verification error: carries the JS error's `name` and
`message` fields, which the middleware interpolates into its 400 body. -/
structure JwtError where
  name : String
  message : String
deriving DecidableEq, Repr

/-- `toJWT(data)` from src/index.js line 27: `jwt.sign(data, jwtSecret,
{ expiresIn: '2h' })` — a signed token whose expiry is two hours
(7200 seconds) after the current time. -/
def toJWT (secret : String) (now : Nat) (data : Claims) : Jwt :=
  .signed data (now + 7200) secret

/-- `toData(token)` from src/index.js line 31: `jwt.verify(token, jwtSecret)`.
Fails with `JsonWebTokenError` on an unparseable token or a signature
mismatch, with `TokenExpiredError` once the current time reaches the
embedded expiry; otherwise returns the signed payload. -/
def toData (secret : String) (now : Nat) (token : Jwt) : Except JwtError Claims :=
  match token with
  | .malformed _ => .error ⟨"JsonWebTokenError", "jwt malformed"⟩
  | .signed payload exp sig =>
    if sig ≠ secret then .error ⟨"JsonWebTokenError", "invalid signature"⟩
    else if exp ≤ now then .error ⟨"TokenExpiredError", "jwt expired"⟩
    else .ok payload

/-- An idealized bcrypt hash: the salt (random per call, passed explicitly
here) together with the plaintext the hash was derived from.  One-wayness
is a computational property outside the embedding; what matters to the
code is that comparison succeeds exactly on the original plaintext. -/
structure BHash where
  salt : Nat
  rounds : Nat
  key : String
deriving DecidableEq, Repr

/-- `bcrypt.hashSync(plaintext, 10)`: salted hash of the plaintext. -/
def hashSync (plaintext : String) (rounds : Nat) (salt : Nat) : BHash :=
  ⟨salt, rounds, plaintext⟩

/-- `bcrypt.compareSync(plaintext, hash)`: true iff the plaintext, hashed
with the hash's embedded salt, matches the stored hash. -/
def compareSync (plaintext : String) (h : BHash) : Bool :=
  h.key == plaintext

/-- A row of the `users` table (src/index.js line 37): `email`, `password`
(a bcrypt hash), and the auto-increment primary key `id`. -/
structure User where
  id : Nat
  email : String
  password : BHash
deriving DecidableEq, Repr

/-- A row of the `playlists` table (line 45) with the `userId` foreign key
added by `User.hasMany(Playlist)`. -/
structure Playlist where
  id : Nat
  name : String
  userId : Nat
deriving DecidableEq, Repr

/-- A row of the `songs` table (line 51) with the `playlistId` foreign key
added by `Playlist.hasMany(Song)`. -/
structure Song where
  id : Nat
  title : String
  artist : String
  album : String
  playlistId : Nat
deriving DecidableEq, Repr

/-- The Sequelize store: the three tables plus each table's next
auto-increment primary key. -/
structure DB where
  users : List User
  playlists : List Playlist
  songs : List Song
  nextUserId : Nat
  nextPlaylistId : Nat
  nextSongId : Nat
deriving DecidableEq, Repr

/-- `User.findByPk(id)`: the first (only, in a real store) user with the
given primary key. -/
def findByPk (users : List User) (id : Nat) : Option User :=
  users.find? (fun u => u.id == id)

/-- A JSON response body.  Each constructor is one of the body shapes the
handlers in src/index.js produce. -/
inductive Body where
  | errorMsg (msg : String)
  | playlistSummaries (ps : List (Nat × String))
  | playlistDetail (id : Nat) (name : String)
      (songs : List (Nat × String × String × String))
  | playlistFull (p : Playlist)
  | destroyedCount (n : Nat)
  | songFull (s : Song)
  | userSummary (id : Nat) (email : String)
  | tokenBody (t : Jwt)
deriving DecidableEq, Repr

/-- An HTTP response: status (200 when `res.json` is used bare) and body. -/
structure Response where
  status : Nat
  body : Body
deriving DecidableEq, Repr

/-- A word of the split `Authorization` header.  `text` is the character
content (used for the `'Bearer'` comparison and JS truthiness), `asJwt`
is how `jwt.verify` would parse the word were it passed as a token. -/
structure Str where
  text : String
  asJwt : Jwt
deriving DecidableEq, Repr

/-- The `Authorization` request header: absent, or present and already
split on spaces (`req.headers.authorization.split(' ')`).  A present
header's word list is nonempty in JS (`''.split(' ') = ['']`), but the
model is total over any list. -/
inductive AuthHeader where
  | absent
  | present (words : List Str)
deriving DecidableEq, Repr

/-- The observable outcome of the `auth` middleware (src/index.js 73–100):
either a response was sent (401/400), `next(err)` propagated an error to
Express error handling, or `req.user` was attached and `next()` called so
the wrapped handler runs. -/
inductive AuthOutcome where
  | respond (status : Nat) (body : Body)
  | nextError (err : String)
  | proceed (user : User)
deriving DecidableEq, Repr

/-- The `auth` middleware.  Mirrors the JS: if the header is present and
`auth[0] === 'Bearer' && auth[1]` (index 1 exists and is non-empty), run
`toData` on the token — a verification error becomes a 400 with
`Error <name>: <message>`; otherwise look the payload's `userId` up, a
missing user becomes `next('User does not exist')`, a found user is
attached and the chain proceeds.  Any other header shape gets 401
`{ error: 'Unauthorized' }`. -/
def auth (secret : String) (now : Nat) (users : List User)
    (hdr : AuthHeader) : AuthOutcome :=
  match hdr with
  | .absent => .respond 401 (.errorMsg "Unauthorized")
  | .present ws =>
    match ws[0]?, ws[1]? with
    | some w0, some w1 =>
      if w0.text = "Bearer" ∧ w1.text ≠ "" then
        match toData secret now w1.asJwt with
        | .error e =>
            .respond 400 (.errorMsg ("Error " ++ e.name ++ ": " ++ e.message))
        | .ok data =>
          match findByPk users data.userId with
          | none => .nextError "User does not exist"
          | some u => .proceed u
      else .respond 401 (.errorMsg "Unauthorized")
    | _, _ => .respond 401 (.errorMsg "Unauthorized")

/-- `GET /playlists` (src/index.js 102): all playlists whose `userId` is
the authenticated user's id, projected to `[id, name]`. -/
def getPlaylists (db : DB) (u : User) : Response :=
  ⟨200, .playlistSummaries
    ((db.playlists.filter (fun p => p.userId == u.id)).map
      (fun p => (p.id, p.name)))⟩

/-- The `include`d songs of a playlist, projected to the attributes
`[id, title, album, artist]` in that order. -/
def songAttrs (db : DB) (pid : Nat) : List (Nat × String × String × String) :=
  (db.songs.filter (fun s => s.playlistId == pid)).map
    (fun s => (s.id, s.title, s.album, s.artist))

/-- `GET /playlists/:id` (src/index.js 120): the playlist with the given id
owned by the authenticated user, with its songs included; 404
`{ error: 'Not found' }` when there is none. -/
def getPlaylist (db : DB) (u : User) (pid : Nat) : Response :=
  match db.playlists.find? (fun p => p.userId == u.id && p.id == pid) with
  | none => ⟨404, .errorMsg "Not found"⟩
  | some p => ⟨200, .playlistDetail p.id p.name (songAttrs db p.id)⟩

/-- `POST /playlists` (src/index.js 144): create a playlist named by the
body with `userId: req.user.id`; 201 with the created row. -/
def postPlaylists (db : DB) (u : User) (name : String) : Response × DB :=
  let p : Playlist := ⟨db.nextPlaylistId, name, u.id⟩
  (⟨201, .playlistFull p⟩,
   { db with playlists := db.playlists ++ [p],
             nextPlaylistId := db.nextPlaylistId + 1 })

/-- `DELETE /playlists/:id` (src/index.js 153): destroy the rows matching
`{ userId: req.user.id, id }`; 404 when none were destroyed, else the
destroyed-row count as the body. -/
def deletePlaylist (db : DB) (u : User) (pid : Nat) : Response × DB :=
  let hit := fun (p : Playlist) => p.userId == u.id && p.id == pid
  let count := (db.playlists.filter hit).length
  let db' := { db with playlists := db.playlists.filter (fun p => !(hit p)) }
  if count == 0 then (⟨404, .errorMsg "Not found"⟩, db')
  else (⟨200, .destroyedCount count⟩, db')

/-- `POST /playlists/:id/songs` (src/index.js 170): find the playlist with
the given id owned by the authenticated user; 422 `{ error: 'Not found' }`
when there is none, else create a song with `playlistId: playlist.id` and
respond 201 with the created row. -/
def postSong (db : DB) (u : User) (pid : Nat)
    (title artist album : String) : Response × DB :=
  match db.playlists.find? (fun p => p.userId == u.id && p.id == pid) with
  | none => (⟨422, .errorMsg "Not found"⟩, db)
  | some p =>
    let s : Song := ⟨db.nextSongId, title, artist, album, p.id⟩
    (⟨201, .songFull s⟩,
     { db with songs := db.songs ++ [s], nextSongId := db.nextSongId + 1 })

/-- `POST /users` (src/index.js 196): if the password and its confirmation
differ, respond (status 200, `res.json`'s default) with an error body and
create nothing; else create the user with the bcrypt hash of the password
and respond 201 with the created user re-fetched under attributes
`[id, email]`. -/
def postUsers (db : DB) (salt : Nat)
    (email password password_confirmation : String) : Response × DB :=
  if password ≠ password_confirmation then
    (⟨200, .errorMsg "Passwords need to match!"⟩, db)
  else
    let u : User := ⟨db.nextUserId, email, hashSync password 10 salt⟩
    let db' := { db with users := db.users ++ [u],
                         nextUserId := db.nextUserId + 1 }
    match findByPk db'.users u.id with
    | none => (⟨201, .errorMsg "null"⟩, db')
    | some v => (⟨201, .userSummary v.id v.email⟩, db')

/-- `POST /tokens` (src/index.js 217): look the user up by email; if none
exists or the password does not bcrypt-compare against the stored hash,
respond 401 `{ error: 'Unauthorized' }`; else 200 with a fresh token over
`{ userId: user.id }`. -/
def postTokens (db : DB) (secret : String) (now : Nat)
    (email password : String) : Response :=
  match db.users.find? (fun u => u.email == email) with
  | none => ⟨401, .errorMsg "Unauthorized"⟩
  | some u =>
    if !(compareSync password u.password) then ⟨401, .errorMsg "Unauthorized"⟩
    else ⟨200, .tokenBody (toJWT secret now ⟨u.id⟩)⟩

/-! ## Claims -/

/-- Helper: after a registration with matching confirmation the store holds
the created row appended, whichever branch the re-fetch by primary key
takes. -/
theorem postUsers_matching_snd (db : DB) (salt : Nat) (email pw : String) :
    (postUsers db salt email pw pw).2 =
      { db with
          users := db.users ++ [⟨db.nextUserId, email, hashSync pw 10 salt⟩],
          nextUserId := db.nextUserId + 1 } := by
  unfold postUsers
  rw [if_neg (by simp)]
  dsimp only
  split <;> rfl

/-- C2: for every claims object `C`, verifying a token freshly issued from
`C` (`toData` applied to `toJWT(C)`) before the token's expiry returns the
original claims `C`. -/
theorem claim_C2_verify_issue_roundtrip (secret : String)
    (issueTime verifyTime : Nat) (c : Claims)
    (h : verifyTime < issueTime + 7200) :
    toData secret verifyTime (toJWT secret issueTime c) = .ok c := by
  simp only [toJWT, toData]
  rw [if_neg (by simp), if_neg (Nat.not_le.mpr h)]

/-- Witness for C2 at a concrete claims object and concrete times. -/
theorem claim_C2_verify_issue_roundtrip_witness :
    toData "s3cret" 7199 (toJWT "s3cret" 0 ⟨42⟩) = .ok ⟨42⟩ :=
  claim_C2_verify_issue_roundtrip "s3cret" 0 7199 ⟨42⟩ (by decide)

/-- C8: every token issued by the token service embeds an expiry of two
hours (7200 s) from issuance, and verifying it at any later time fails
with the `Expired` error (`TokenExpiredError`). -/
theorem claim_C8_two_hour_expiry (secret : String) (issueTime later : Nat)
    (c : Claims) (h : issueTime + 7200 < later) :
    toJWT secret issueTime c = .signed c (issueTime + 7200) secret ∧
    toData secret later (toJWT secret issueTime c) =
      .error ⟨"TokenExpiredError", "jwt expired"⟩ := by
  refine ⟨rfl, ?_⟩
  simp only [toJWT, toData]
  rw [if_neg (by simp), if_pos (Nat.le_of_lt h)]

/-- Witness for C8 at concrete times one second past expiry. -/
theorem claim_C8_two_hour_expiry_witness :
    toJWT "k" 100 ⟨7⟩ = .signed ⟨7⟩ 7300 "k" ∧
    toData "k" 7301 (toJWT "k" 100 ⟨7⟩) =
      .error ⟨"TokenExpiredError", "jwt expired"⟩ :=
  claim_C8_two_hour_expiry "k" 100 7301 ⟨7⟩ (by decide)

/-- C4: a request whose `Authorization` header is `Bearer <token>` with a
token failing verification gets a 400 response whose body is
`{ error: "Error <Kind>: <message>" }`, and the wrapped handler never
runs. -/
theorem claim_C4_verify_failure_400 (secret : String) (now : Nat)
    (users : List User) (w0 w1 : Str) (rest : List Str) (e : JwtError)
    (h0 : w0.text = "Bearer") (h1 : w1.text ≠ "")
    (he : toData secret now w1.asJwt = .error e) :
    auth secret now users (.present (w0 :: w1 :: rest)) =
      .respond 400 (.errorMsg ("Error " ++ e.name ++ ": " ++ e.message)) ∧
    ∀ v : User,
      auth secret now users (.present (w0 :: w1 :: rest)) ≠ .proceed v := by
  have hmain : auth secret now users (.present (w0 :: w1 :: rest)) =
      .respond 400 (.errorMsg ("Error " ++ e.name ++ ": " ++ e.message)) := by
    simp [auth, h0, h1, he]
  exact ⟨hmain, fun v hv => by rw [hmain] at hv; exact AuthOutcome.noConfusion hv⟩

/-- Witness for C4: a bearer token with a wrong signature gets the 400
body naming `JsonWebTokenError`. -/
theorem claim_C4_verify_failure_400_witness :
    auth "right" 0 [] (.present [⟨"Bearer", .malformed "x"⟩,
        ⟨"tok", .signed ⟨1⟩ 9999 "wrong"⟩]) =
      .respond 400 (.errorMsg "Error JsonWebTokenError: invalid signature") :=
  (claim_C4_verify_failure_400 "right" 0 [] ⟨"Bearer", .malformed "x"⟩
    ⟨"tok", .signed ⟨1⟩ 9999 "wrong"⟩ []
    ⟨"JsonWebTokenError", "invalid signature"⟩ rfl (by decide) rfl).1

/-- C5: when the `Authorization` header is absent, or its space-split words
do not start with `Bearer` followed by a non-empty token, the middleware
responds 401 `{ error: "Unauthorized" }` regardless of the words' token
content, and the wrapped handler never runs. -/
theorem claim_C5_missing_header_401 (secret : String) (now : Nat)
    (users : List User) (ws : List Str)
    (h : ∀ w0 w1 rest, ws = w0 :: w1 :: rest →
      ¬(w0.text = "Bearer" ∧ w1.text ≠ "")) :
    auth secret now users .absent = .respond 401 (.errorMsg "Unauthorized") ∧
    auth secret now users (.present ws) =
      .respond 401 (.errorMsg "Unauthorized") ∧
    ∀ v : User, auth secret now users (.present ws) ≠ .proceed v := by
  have hmain : auth secret now users (.present ws) =
      .respond 401 (.errorMsg "Unauthorized") := by
    match ws with
    | [] => rfl
    | [w0] => rfl
    | w0 :: w1 :: rest =>
      have hne := h w0 w1 rest rfl
      simp only [auth, List.getElem?_cons_zero, List.getElem?_cons_succ]
      rw [if_neg hne]
  exact ⟨rfl, hmain,
    fun v hv => by rw [hmain] at hv; exact AuthOutcome.noConfusion hv⟩

/-- Witness for C5: a header reading `Basic <credentials>` gets 401 even
though its second word carries a token the secret would verify. -/
theorem claim_C5_missing_header_401_witness :
    auth "s" 0 [] (.present [⟨"Basic", .malformed "b"⟩,
        ⟨"abc", .signed ⟨1⟩ 9999 "s"⟩]) =
      .respond 401 (.errorMsg "Unauthorized") :=
  (claim_C5_missing_header_401 "s" 0 [] [⟨"Basic", .malformed "b"⟩,
    ⟨"abc", .signed ⟨1⟩ 9999 "s"⟩]
    (by intro w0 w1 rest hws; cases hws; decide)).2.1

/-- C3: a well-formed, correctly signed, unexpired bearer token whose
`userId` matches no stored user makes the middleware halt the chain with
`next('User does not exist')`; it never proceeds to the wrapped
handler. -/
theorem claim_C3_deleted_user_halts (secret : String) (now : Nat)
    (users : List User) (w0 w1 : Str) (rest : List Str) (uid exp : Nat)
    (h0 : w0.text = "Bearer") (h1 : w1.text ≠ "")
    (htok : w1.asJwt = .signed ⟨uid⟩ exp secret) (hfresh : now < exp)
    (hnouser : ∀ u ∈ users, u.id ≠ uid) :
    auth secret now users (.present (w0 :: w1 :: rest)) =
      .nextError "User does not exist" ∧
    ∀ v : User,
      auth secret now users (.present (w0 :: w1 :: rest)) ≠ .proceed v := by
  have hfind : findByPk users uid = none := by
    rw [findByPk, List.find?_eq_none]
    intro u hu
    simp [hnouser u hu]
  have hmain : auth secret now users (.present (w0 :: w1 :: rest)) =
      .nextError "User does not exist" := by
    simp [auth, h0, h1, htok, toData, Nat.not_le.mpr hfresh, hfind]
  exact ⟨hmain,
    fun v hv => by rw [hmain] at hv; exact AuthOutcome.noConfusion hv⟩

/-- Witness for C3: a valid unexpired token for user id 9 against a store
holding only user id 1. -/
theorem claim_C3_deleted_user_halts_witness :
    auth "s" 10 [⟨1, "a@b", ⟨0, 10, "pw"⟩⟩]
      (.present [⟨"Bearer", .malformed "h"⟩, ⟨"tok", .signed ⟨9⟩ 7210 "s"⟩]) =
      .nextError "User does not exist" :=
  (claim_C3_deleted_user_halts "s" 10 [⟨1, "a@b", ⟨0, 10, "pw"⟩⟩]
    ⟨"Bearer", .malformed "h"⟩ ⟨"tok", .signed ⟨9⟩ 7210 "s"⟩ [] 9 7210
    rfl (by decide) rfl (by decide) (by decide)).1

/-- C6: a registration whose password differs from its confirmation gets an
error body with HTTP status 200 (`res.json`'s default), and the user store
is unchanged. -/
theorem claim_C6_password_mismatch (db : DB) (salt : Nat)
    (email pw pc : String) (h : pw ≠ pc) :
    postUsers db salt email pw pc =
      (⟨200, .errorMsg "Passwords need to match!"⟩, db) := by
  simp [postUsers, h]

/-- Witness for C6 on an empty store. -/
theorem claim_C6_password_mismatch_witness :
    postUsers ⟨[], [], [], 1, 1, 1⟩ 3 "a@b" "p1" "p2" =
      (⟨200, .errorMsg "Passwords need to match!"⟩, ⟨[], [], [], 1, 1, 1⟩) :=
  claim_C6_password_mismatch ⟨[], [], [], 1, 1, 1⟩ 3 "a@b" "p1" "p2"
    (by decide)

/-- C7: a registration with matching confirmation responds 201 with body
exactly `{ id, email }` of the created user (no password field of any
kind), and stores the user with the bcrypt hash.  The hypothesis that no
stored user already carries the next auto-increment id is the primary-key
uniqueness a real store enforces. -/
theorem claim_C7_successful_registration (db : DB) (salt : Nat)
    (email pw : String) (hid : ∀ v ∈ db.users, v.id ≠ db.nextUserId) :
    (postUsers db salt email pw pw).1 =
      ⟨201, .userSummary db.nextUserId email⟩ ∧
    (postUsers db salt email pw pw).2.users =
      db.users ++ [⟨db.nextUserId, email, hashSync pw 10 salt⟩] := by
  have hnone : db.users.find? (fun v => v.id == db.nextUserId) = none := by
    rw [List.find?_eq_none]
    intro v hv
    simp [hid v hv]
  constructor <;>
    simp [postUsers, findByPk, List.find?_append, hnone]

/-- Witness for C7 on a store already holding user id 1. -/
theorem claim_C7_successful_registration_witness :
    (postUsers ⟨[⟨1, "x@y", ⟨0, 10, "q"⟩⟩], [], [], 2, 1, 1⟩ 5
        "a@b" "pw" "pw").1 = ⟨201, .userSummary 2 "a@b"⟩ ∧
    (postUsers ⟨[⟨1, "x@y", ⟨0, 10, "q"⟩⟩], [], [], 2, 1, 1⟩ 5
        "a@b" "pw" "pw").2.users =
      [⟨1, "x@y", ⟨0, 10, "q"⟩⟩] ++ [⟨2, "a@b", hashSync "pw" 10 5⟩] :=
  claim_C7_successful_registration ⟨[⟨1, "x@y", ⟨0, 10, "q"⟩⟩], [], [], 2, 1, 1⟩
    5 "a@b" "pw" (by decide)

/-- C10: `POST /playlists/:id/songs` with no playlist of that id owned by
the authenticated user responds 422 `{ error: 'Not found' }` and leaves
the store unchanged (no song is created). -/
theorem claim_C10_song_create_not_found (db : DB) (u : User) (pid : Nat)
    (title artist album : String)
    (h : ∀ p ∈ db.playlists, ¬(p.userId = u.id ∧ p.id = pid)) :
    postSong db u pid title artist album =
      (⟨422, .errorMsg "Not found"⟩, db) := by
  have hfind :
      db.playlists.find? (fun p => p.userId == u.id && p.id == pid) = none := by
    rw [List.find?_eq_none]
    intro p hp
    simpa using h p hp
  simp [postSong, hfind]

/-- Witness for C10: the target playlist exists but belongs to user 2, and
the requester is user 1. -/
theorem claim_C10_song_create_not_found_witness :
    postSong ⟨[], [⟨5, "other", 2⟩], [], 1, 6, 1⟩ ⟨1, "a@b", ⟨0, 10, "p"⟩⟩ 5
        "t" "ar" "al" =
      (⟨422, .errorMsg "Not found"⟩, ⟨[], [⟨5, "other", 2⟩], [], 1, 6, 1⟩) :=
  claim_C10_song_create_not_found ⟨[], [⟨5, "other", 2⟩], [], 1, 6, 1⟩
    ⟨1, "a@b", ⟨0, 10, "p"⟩⟩ 5 "t" "ar" "al" (by decide)

/-- C9: login fails with 401 `{ error: "Unauthorized" }` (no token issued)
when no user has the given email or the password does not bcrypt-compare
against the stored hash; and after registering with a fresh email and
password `P`, logging in with that email and `P` yields 200 with a token
encoding the created user's id. -/
theorem claim_C9_login (db : DB) (secret : String) (now salt : Nat)
    (email pw : String) :
    ((db.users.find? (fun v => v.email == email) = none →
        postTokens db secret now email pw = ⟨401, .errorMsg "Unauthorized"⟩) ∧
     (∀ u, db.users.find? (fun v => v.email == email) = some u →
        compareSync pw u.password = false →
        postTokens db secret now email pw = ⟨401, .errorMsg "Unauthorized"⟩)) ∧
    ((∀ v ∈ db.users, v.email ≠ email) →
      postTokens (postUsers db salt email pw pw).2 secret now email pw =
        ⟨200, .tokenBody (toJWT secret now ⟨db.nextUserId⟩)⟩) := by
  refine ⟨⟨fun hnone => by simp [postTokens, hnone],
           fun u hu hcmp => by simp [postTokens, hu, hcmp]⟩, fun hfresh => ?_⟩
  have hnone : db.users.find? (fun v => v.email == email) = none := by
    rw [List.find?_eq_none]
    intro v hv
    simp [hfresh v hv]
  rw [postUsers_matching_snd]
  simp [postTokens, List.find?_append, hnone, compareSync, hashSync]

/-- Witness for C9: a wrong password is rejected, and a fresh registration
followed by a login with the same password yields a token for the new
user's id. -/
theorem claim_C9_login_witness :
    (postTokens ⟨[⟨1, "a@b", ⟨0, 10, "good"⟩⟩], [], [], 2, 1, 1⟩ "s" 50
        "a@b" "bad" = ⟨401, .errorMsg "Unauthorized"⟩) ∧
    (postTokens (postUsers ⟨[⟨1, "a@b", ⟨0, 10, "good"⟩⟩], [], [], 2, 1, 1⟩ 4
        "c@d" "pw" "pw").2 "s" 50 "c@d" "pw" =
      ⟨200, .tokenBody (toJWT "s" 50 ⟨2⟩)⟩) := by
  constructor
  · exact (claim_C9_login ⟨[⟨1, "a@b", ⟨0, 10, "good"⟩⟩], [], [], 2, 1, 1⟩
      "s" 50 4 "a@b" "bad").1.2 ⟨1, "a@b", ⟨0, 10, "good"⟩⟩ rfl (by decide)
  · exact (claim_C9_login ⟨[⟨1, "a@b", ⟨0, 10, "good"⟩⟩], [], [], 2, 1, 1⟩
      "s" 50 4 "c@d" "pw").2 (by decide)

/-- C1: every read or mutation performed by the playlist/song handlers is
scoped to the authenticated user's id: every summary listed by
`GET /playlists` comes from a playlist owned by the user; a 200 from
`GET /playlists/:id` implies such an owned playlist exists;
`POST /playlists` only adds playlists owned by the user;
`DELETE /playlists/:id` never removes another user's playlist; and every
song created by `POST /playlists/:id/songs` has as parent an owned
playlist (song access is transitive through the owning playlist). -/
theorem claim_C1_ownership_scoping (db : DB) (u : User) (pid : Nat)
    (nm title artist album : String) :
    (∀ l, (getPlaylists db u).body = .playlistSummaries l →
      ∀ x ∈ l, ∃ p ∈ db.playlists, p.userId = u.id ∧ x = (p.id, p.name)) ∧
    ((getPlaylist db u pid).status = 200 →
      ∃ p ∈ db.playlists, p.userId = u.id ∧ p.id = pid) ∧
    (∀ p ∈ (postPlaylists db u nm).2.playlists,
      p ∈ db.playlists ∨ p.userId = u.id) ∧
    (∀ p ∈ db.playlists, p.userId ≠ u.id →
      p ∈ (deletePlaylist db u pid).2.playlists) ∧
    (∀ s ∈ (postSong db u pid title artist album).2.songs,
      s ∈ db.songs ∨
        ∃ p ∈ db.playlists,
          p.userId = u.id ∧ p.id = pid ∧ s.playlistId = p.id) := by
  refine ⟨?_, ?_, ?_, ?_, ?_⟩
  · intro l hl x hx
    simp only [getPlaylists] at hl
    injection hl with hl
    subst hl
    rcases List.mem_map.mp hx with ⟨p, hpmem, rfl⟩
    rcases List.mem_filter.mp hpmem with ⟨hp, hcond⟩
    exact ⟨p, hp, by simpa using hcond, rfl⟩
  · intro h200
    cases hfind : db.playlists.find? (fun p => p.userId == u.id && p.id == pid)
      with
    | none => simp [getPlaylist, hfind] at h200
    | some p =>
      have hmem := List.mem_of_find?_eq_some hfind
      have hcond := List.find?_some hfind
      simp only [Bool.and_eq_true, beq_iff_eq] at hcond
      exact ⟨p, hmem, hcond.1, hcond.2⟩
  · intro p hp
    simp only [postPlaylists, List.mem_append, List.mem_singleton] at hp
    rcases hp with h | rfl
    · exact .inl h
    · exact .inr rfl
  · intro p hp hne
    have hsnd : (deletePlaylist db u pid).2 =
        { db with playlists :=
            db.playlists.filter (fun q => !(q.userId == u.id && q.id == pid)) }
        := by
      unfold deletePlaylist
      dsimp only
      split <;> rfl
    rw [hsnd]
    refine List.mem_filter.mpr ⟨hp, ?_⟩
    simp [hne]
  · intro s hs
    cases hfind : db.playlists.find? (fun p => p.userId == u.id && p.id == pid)
      with
    | none =>
      simp only [postSong, hfind] at hs
      exact .inl hs
    | some p =>
      simp only [postSong, hfind, List.mem_append, List.mem_singleton] at hs
      rcases hs with h | rfl
      · exact .inl h
      · right
        have hmem := List.mem_of_find?_eq_some hfind
        have hcond := List.find?_some hfind
        simp only [Bool.and_eq_true, beq_iff_eq] at hcond
        exact ⟨p, hmem, hcond.1, hcond.2, rfl⟩

/-- Witness for C1: user 1 deletes playlist 7, which belongs to user 2; the
playlist survives. -/
theorem claim_C1_ownership_scoping_witness :
    (⟨7, "other", 2⟩ : Playlist) ∈
      (deletePlaylist ⟨[], [⟨5, "mine", 1⟩, ⟨7, "other", 2⟩], [], 1, 8, 1⟩
        ⟨1, "a@b", ⟨0, 10, "p"⟩⟩ 7).2.playlists :=
  (claim_C1_ownership_scoping
    ⟨[], [⟨5, "mine", 1⟩, ⟨7, "other", 2⟩], [], 1, 8, 1⟩
    ⟨1, "a@b", ⟨0, 10, "p"⟩⟩ 7 "n" "t" "ar" "al").2.2.2.1
    ⟨7, "other", 2⟩ (by decide) (by decide)

end Spotify
